import Mathlib

/-!
Shallow embedding of the `init-python-repo` project generator
(`src/init_python_repo/{config,templates,generator,cli}.py`).

Python strings are embedded as Lean `String`s; the single-character
`str.replace` calls become character maps over `String.data`; dictionaries
keyed by the closed enumerations become total Lean functions; functions that
can raise become `Option`/`Except`-valued; the file-writing side effects of
the generator become an explicit ordered list of the relative paths written.
-/

namespace InitPythonRepo

/-- `ProjectType` enumeration from `config.py` (values "library", "api",
"cli", "data", "tui"). -/
inductive ProjectType where
  | LIBRARY
  | API
  | CLI
  | DATA
  | TUI
deriving DecidableEq, Repr

/-- `License` enumeration from `config.py`. -/
inductive License where
  | MIT
  | APACHE2
  | GPL3
  | BSD3
  | UNLICENSE
  | NONE
deriving DecidableEq, Repr

/-- The `.value` string of each `License` member (`config.py`). -/
def License.value : License → String
  | .MIT => "MIT"
  | .APACHE2 => "Apache-2.0"
  | .GPL3 => "GPL-3.0"
  | .BSD3 => "BSD-3-Clause"
  | .UNLICENSE => "Unlicense"
  | .NONE => "None"

/-- `FeatureFlags` dataclass from `config.py` (defaults: all `True`). -/
structure FeatureFlags where
  vscode : Bool := true
  docker : Bool := true
  makefile : Bool := true
  changelog : Bool := true
  security : Bool := true
  dependabot : Bool := true
  docker_compose : Bool := true
deriving DecidableEq, Repr

/-- `ProjectConfig` dataclass from `config.py`.  `location` is the parent
directory as a plain string (the `Path` arithmetic used by the code is just
joining with `/`). -/
structure ProjectConfig where
  name : String
  location : String := "~/Repos"
  python_version : String := "3.12"
  project_type : ProjectType := .LIBRARY
  license_type : License := .MIT
  features : FeatureFlags := {}
  private_repo : Bool := true
  skip_github : Bool := false
  skip_vscode_open : Bool := false
deriving DecidableEq, Repr

/-- `config.path`: `location / name`. -/
def ProjectConfig.path (c : ProjectConfig) : String :=
  c.location ++ "/" ++ c.name

/-- Python `s.replace(old, new)` for a one-character `old`, which replaces
every occurrence of that character; as a character map over the data. -/
def replaceChar (old new : Char) (s : String) : String :=
  ⟨s.data.map fun c => if c = old then new else c⟩

/-- Python `s.replace(old, "")` for a one-character `old`: drops every
occurrence of that character. -/
def dropChar (old : Char) (s : String) : String :=
  ⟨s.data.filter fun c => c ≠ old⟩

/-- `config.package_name`: `self.name.replace("-", "_").replace(".", "_")`
(two sequential single-character replacements, exactly as in `config.py`). -/
def ProjectConfig.package_name (c : ProjectConfig) : String :=
  replaceChar '.' '_' (replaceChar '-' '_' c.name)

/-- The same derivation applied to a bare display name (used to state
properties of the derivation itself). -/
def packageNameOf (name : String) : String :=
  replaceChar '.' '_' (replaceChar '-' '_' name)

/-- `config.python_target`: `f"py{self.python_version.replace('.', '')}"`. -/
def ProjectConfig.python_target (c : ProjectConfig) : String :=
  "py" ++ dropChar '.' c.python_version

/-- `RUNTIME_DEPS` mapping from `config.py` (archetype → runtime packages). -/
def RUNTIME_DEPS : ProjectType → List String
  | .LIBRARY => []
  | .API => ["fastapi", "uvicorn", "httpx", "pydantic", "pydantic-settings",
      "python-dotenv", "structlog"]
  | .CLI => ["typer", "rich", "python-dotenv"]
  | .DATA => ["polars", "pyarrow", "duckdb", "sqlalchemy", "httpx", "pydantic",
      "python-dotenv", "structlog"]
  | .TUI => ["textual", "rich", "python-dotenv"]

/-- `DEV_DEPS` mapping from `config.py` (archetype → dev packages). -/
def DEV_DEPS : ProjectType → List String
  | .LIBRARY => []
  | .API => ["httpx"]
  | .CLI => []
  | .DATA => ["faker"]
  | .TUI => ["textual-dev"]

/-- `CORE_DEV_DEPS` list from `config.py`. -/
def CORE_DEV_DEPS : List String :=
  ["ruff", "pytest", "pytest-cov", "mypy", "pre-commit", "pytest-asyncio"]

/-- `SECURITY_DEV_DEPS` list from `config.py`. -/
def SECURITY_DEV_DEPS : List String := ["bandit", "detect-secrets"]

/-!  ## CI workflow (`templates.get_ci_workflow`)  -/

/-- Splitting a character list at every occurrence of a separator, keeping
empty segments — the semantics of Python `str.split` with an explicit
one-character separator. -/
def splitChar (sep : Char) : List Char → List (List Char)
  | [] => [[]]
  | c :: cs =>
    match splitChar sep cs with
    | [] => [[]]
    | h :: t => if c = sep then [] :: h :: t else (c :: h) :: t

/-- Python `s.split(sep)` for a one-character separator. -/
def pySplit (sep : Char) (s : String) : List String :=
  (splitChar sep s.data).map fun l => ⟨l⟩

/-- A non-empty all-digit character list read as a decimal number;
otherwise `none`. -/
def parseDigits (ds : List Char) : Option Nat :=
  if ds ≠ [] ∧ ds.all Char.isDigit then
    some (ds.foldl (fun a c => a * 10 + (c.toNat - '0'.toNat)) 0)
  else Option.none

/-- Python `int(s)` on a decimal literal with an optional sign; any string
that is not an optionally signed run of decimal digits raises `ValueError`,
embedded as `none`. -/
def pyInt (s : String) : Option Int :=
  match s.data with
  | '-' :: ds => (parseDigits ds).map fun n => -(n : Int)
  | '+' :: ds => (parseDigits ds).map fun n => (n : Int)
  | ds => (parseDigits ds).map fun n => (n : Int)

/-- The Python-version test matrix computed at the top of `get_ci_workflow`:
`major, minor = python_version.split(".")` (raises unless exactly two
parts), `int(minor)` (raises unless it parses as a decimal integer), then
`versions = [python_version]` plus `f"{major}.13"` when `int(minor) < 13`.
The two raising operations are embedded as `none`. -/
def ciVersions (python_version : String) : Option (List String) :=
  match pySplit '.' python_version with
  | [major, minor] =>
    match pyInt minor with
    | some m =>
      some (if m < 13 then [python_version, major ++ ".13"] else [python_version])
    | Option.none => Option.none
  | _ => Option.none

/-- `templates.get_ci_workflow`: renders the workflow text around the
version matrix; `none` where the Python raises `ValueError`. -/
def get_ci_workflow (python_version : String) : Option String :=
  (ciVersions python_version).map fun versions =>
    let versions_str := String.intercalate ", " (versions.map fun v => "\"" ++ v ++ "\"")
    "name: CI\n\non:\n  push:\n    branches: [main]\n  pull_request:\n    branches: [main]\n\njobs:\n  ci:\n    runs-on: ubuntu-latest\n    strategy:\n      fail-fast: false\n      matrix:\n        python-version: [" ++ versions_str ++
    "]\n    steps:\n      - uses: actions/checkout@v4\n\n      - name: Setup uv\n        uses: astral-sh/setup-uv@v4\n        with:\n          version: \"latest\"\n\n      - name: Set up Python $\x7b\x7b matrix.python-version \x7d\x7d\n        run: uv python install $\x7b\x7b matrix.python-version \x7d\x7d\n\n      - name: Install dependencies\n        run: uv sync --frozen\n\n      - name: Lint\n        run: |\n          uv run ruff check --output-format=github .\n          uv run ruff format --check .\n\n      - name: Type check\n        run: uv run mypy src\n\n      - name: Test\n        run: uv run pytest\n"

/-!  ## Manifest (`templates.get_pyproject_toml`)  -/

/-- Quote a dependency name as in `f'"{dep}"'`. -/
def quoteDep (dep : String) : String := "\"" ++ dep ++ "\""

/-- The `dependencies = ...` right-hand side: an explicit empty collection
`[]` when the runtime list is empty, else the multi-line quoted list
(`",\n    ".join(...)` wrapped in `[\n    ...,\n]`). -/
def depsLine (deps : List String) : String :=
  if deps = [] then "[]"
  else "[\n    " ++ String.intercalate ",\n    " (deps.map quoteDep) ++ ",\n]"

/-- The `[project]` header section of `get_pyproject_toml` (the first
f-string, up to and including the `dependencies` line). -/
def pyprojectBase (c : ProjectConfig) : String :=
  "[project]\nname = \"" ++ c.package_name ++ "\"\n" ++
  "version = \"0.1.0\"\ndescription = \"Add your description here\"\nreadme = \"README.md\"\nrequires-python = \">=" ++
  c.python_version ++ "\"\ndependencies = " ++
  depsLine (RUNTIME_DEPS c.project_type) ++ "\n"

/-- The conditional `license = "..."` line (present iff license ≠ NONE). -/
def pyprojectLicenseLine (c : ProjectConfig) : String :=
  if c.license_type ≠ License.NONE then
    "license = \"" ++ c.license_type.value ++ "\"\n"
  else ""

/-- The build-system / wheel-packages section (second f-string). -/
def pyprojectBuild (c : ProjectConfig) : String :=
  "\n[build-system]\nrequires = [\"hatchling\"]\nbuild-backend = \"hatchling.build\"\n\n[tool.hatch.build.targets.wheel]\n" ++
  "packages = [\"src/" ++ c.package_name ++ "\"]" ++ "\n"

/-- The conditional `[project.scripts]` entry-point section, appended only
for `project_type in (ProjectType.CLI, ProjectType.API)`. -/
def pyprojectScripts (c : ProjectConfig) : String :=
  if c.project_type = ProjectType.CLI ∨ c.project_type = ProjectType.API then
    "\n[project.scripts]\n" ++ c.package_name ++ " = \"" ++ c.package_name ++
    ".main:app\"\n"
  else ""

/-- The dev-dependency list assembled in `get_pyproject_toml`:
`dev_deps = list(CORE_DEV_DEPS)`, then `extend(DEV_DEPS.get(...))`, then
`extend(SECURITY_DEV_DEPS)` when the security feature is on. -/
def devDepsList (c : ProjectConfig) : List String :=
  CORE_DEV_DEPS ++ DEV_DEPS c.project_type ++
    (if c.features.security then SECURITY_DEV_DEPS else [])

/-- The `[dependency-groups]` section. -/
def pyprojectDevGroup (c : ProjectConfig) : String :=
  "\n[dependency-groups]\ndev = [\n    " ++
  String.intercalate ",\n    " ((devDepsList c).map quoteDep) ++ ",\n]\n"

/-- The always-appended tool configuration sections (ruff, mypy, pytest). -/
def pyprojectTools (c : ProjectConfig) : String :=
  "\n[tool.ruff]\nline-length = 120\ntarget-version = \"" ++ c.python_target ++
  "\"\nsrc = [\"src\"]\n\n[tool.ruff.lint]\nselect = [\"E\", \"F\", \"I\", \"UP\", \"B\", \"SIM\", \"RUF\"]\n\n[tool.mypy]\nstrict = true\npython_version = \"" ++
  c.python_version ++
  "\"\n\n[tool.pytest.ini_options]\ntestpaths = [\"tests\"]\naddopts = \"-v --cov=src --cov-report=term-missing\"\nasyncio_mode = \"auto\"\nasyncio_default_fixture_loop_scope = \"function\"\n"

/-- The conditional `[tool.bandit]` section (security feature only). -/
def pyprojectBandit (c : ProjectConfig) : String :=
  if c.features.security then
    "\n[tool.bandit]\nexclude_dirs = [\"tests\"]\n"
  else ""

/-- `templates.get_pyproject_toml`: the `content` string accumulated by the
sequence of `content +=` statements. -/
def get_pyproject_toml (c : ProjectConfig) : String :=
  pyprojectBase c ++ pyprojectLicenseLine c ++ pyprojectBuild c ++
  pyprojectScripts c ++ pyprojectDevGroup c ++ pyprojectTools c ++
  pyprojectBandit c

/-!  ## Docker compose (`templates.get_docker_compose`)  -/

/-- `templates.get_docker_compose`: a full compose document for the API and
DATA archetypes, and the empty string for every other archetype.  The
function itself never consults the feature toggles. -/
def get_docker_compose (c : ProjectConfig) : String :=
  if c.project_type = ProjectType.API then
    "services:\n  app:\n    build: .\n    ports:\n      - \"8000:8000\"\n    environment:\n      - LOG_LEVEL=INFO\n      - DATABASE_URL=postgresql://postgres:postgres@db:5432/" ++
    c.package_name ++
    "\n    depends_on:\n      db:\n        condition: service_healthy\n    volumes:\n      - ./src:/app/src:ro\n    restart: unless-stopped\n\n  db:\n    image: postgres:16-alpine\n    environment:\n      POSTGRES_USER: postgres\n      POSTGRES_PASSWORD: postgres\n      POSTGRES_DB: " ++
    c.package_name ++
    "\n    volumes:\n      - postgres_data:/var/lib/postgresql/data\n    ports:\n      - \"5432:5432\"\n    healthcheck:\n      test: [\"CMD-SHELL\", \"pg_isready -U postgres\"]\n      interval: 5s\n      timeout: 5s\n      retries: 5\n\nvolumes:\n  postgres_data:\n"
  else if c.project_type = ProjectType.DATA then
    "services:\n  app:\n    build: .\n    environment:\n      - LOG_LEVEL=INFO\n      - DATABASE_URL=postgresql://postgres:postgres@db:5432/" ++
    c.package_name ++
    "\n    depends_on:\n      db:\n        condition: service_healthy\n    volumes:\n      - ./src:/app/src:ro\n      - ./data:/app/data\n\n  db:\n    image: postgres:16-alpine\n    environment:\n      POSTGRES_USER: postgres\n      POSTGRES_PASSWORD: postgres\n      POSTGRES_DB: " ++
    c.package_name ++
    "\n    volumes:\n      - postgres_data:/var/lib/postgresql/data\n    ports:\n      - \"5432:5432\"\n    healthcheck:\n      test: [\"CMD-SHELL\", \"pg_isready -U postgres\"]\n      interval: 5s\n      timeout: 5s\n      retries: 5\n\nvolumes:\n  postgres_data:\n"
  else ""

/-!  ## Source and test stubs (`templates.get_main_py` etc.)  -/

/-- `templates.get_main_py`: returns content for API and CLI, `None`
otherwise. -/
def get_main_py (project_type : ProjectType) (_package_name : String) :
    Option String :=
  match project_type with
  | .API => some
      "from fastapi import FastAPI\n\napp = FastAPI()\n\n\n@app.get(\"/health\")\nasync def health() -> dict[str, str]:\n    return \x7b\"status\": \"ok\"\x7d\n"
  | .CLI => some
      "import typer\n\napp = typer.Typer()\n\n\n@app.command()\ndef main(name: str = \"world\") -> None:\n    \"\"\"Greet someone.\"\"\"\n    typer.echo(f\"Hello, \x7bname\x7d!\")\n\n\nif __name__ == \"__main__\":\n    app()\n"
  | _ => Option.none

/-- Python `str.capitalize()`: first character upper-cased, the rest
lower-cased. -/
def pyCapitalize (s : String) : String :=
  match s.data with
  | [] => ""
  | ch :: rest => ⟨ch.toUpper :: rest.map Char.toLower⟩

/-- The TUI stub class name:
`"".join(word.capitalize() for word in package_name.split("_")) + "App"`. -/
def tuiClassName (package_name : String) : String :=
  String.join ((package_name.splitOn "_").map pyCapitalize) ++ "App"

/-- `templates.get_app_py` (TUI source stub). -/
def get_app_py (package_name : String) : String :=
  "from textual.app import App, ComposeResult\nfrom textual.widgets import Footer, Header, Static\n\n\n" ++
  ("class " ++ tuiClassName package_name ++ "(App):") ++
  "\n    \"\"\"A Textual app.\"\"\"\n\n    BINDINGS = [(\"q\", \"quit\", \"Quit\")]\n\n    def compose(self) -> ComposeResult:\n        yield Header()\n        yield Static(\"Hello, World!\")\n        yield Footer()\n\n\ndef main() -> None:\n    app = " ++
  tuiClassName package_name ++
  "()\n    app.run()\n\n\nif __name__ == \"__main__\":\n    main()\n"

/-- `templates.get_pipeline_py` (DATA source stub). -/
def get_pipeline_py : String :=
  "import polars as pl\n\n\ndef transform(df: pl.DataFrame) -> pl.DataFrame:\n    \"\"\"Example transformation.\"\"\"\n    return df\n"

/-- `templates.get_tcss` (TUI stylesheet). -/
def get_tcss (_package_name : String) : String :=
  "Screen \x7b\n    align: center middle;\n\x7d\n\nStatic \x7b\n    width: auto;\n    padding: 1 2;\n    background: $surface;\n    border: round $primary;\n\x7d\n"

/-- `templates.get_test_file`: (file name, content) per archetype. -/
def get_test_file (project_type : ProjectType) (package_name : String) :
    String × String :=
  match project_type with
  | .API => ("test_api.py",
      "from typing import AsyncIterator\n\nimport pytest\nfrom httpx import ASGITransport, AsyncClient\n\n" ++
      ("from " ++ package_name ++ ".main import app") ++
      "\n\n\n@pytest.fixture\nasync def client() -> AsyncIterator[AsyncClient]:\n    async with AsyncClient(transport=ASGITransport(app=app), base_url=\"http://test\") as ac:\n        yield ac\n\n\n@pytest.mark.asyncio\nasync def test_health(client: AsyncClient) -> None:\n    response = await client.get(\"/health\")\n    assert response.status_code == 200\n    assert response.json() == \x7b\"status\": \"ok\"\x7d\n")
  | .CLI => ("test_cli.py",
      "from typer.testing import CliRunner\n\nfrom " ++ package_name ++
      ".main import app\n\nrunner = CliRunner()\n\n\ndef test_main() -> None:\n    result = runner.invoke(app, [\"--name\", \"test\"])\n    assert result.exit_code == 0\n    assert \"Hello, test!\" in result.stdout\n")
  | .TUI => ("test_app.py",
      "import pytest\n\nfrom " ++ package_name ++ ".app import " ++
      tuiClassName package_name ++
      "\n\n\n@pytest.mark.asyncio\nasync def test_app_runs() -> None:\n    app = " ++
      tuiClassName package_name ++
      "()\n    async with app.run_test():\n        assert app.is_running\n")
  | .DATA => ("test_pipeline.py",
      "import polars as pl\n\nfrom " ++ package_name ++
      ".pipeline import transform\n\n\ndef test_transform() -> None:\n    df = pl.DataFrame(\x7b\"a\": [1, 2, 3]\x7d)\n    result = transform(df)\n    assert result.shape == (3, 1)\n")
  | .LIBRARY => ("test_placeholder.py",
      "def test_placeholder() -> None:\n    assert True\n")

/-!  ## README directory tree (`templates.get_readme`)

`get_readme` builds `tree_lines`, a list of box-drawing-prefixed lines.
`readmeTreePaths` embeds that list line for line with the box-drawing
prefixes decoded into the relative path each line denotes (directories keep
a trailing `/`); the appends and their conditions mirror the source
exactly. -/

/-- The paths denoted by `tree_lines` in `get_readme`, in source order.  The
first three lines are `.github/`, `.github/workflows/` and
`.github/workflows/ci.yml`; the conditional appends follow the same guards
as the source. -/
def readmeTreePaths (c : ProjectConfig) : List String :=
  [".github/", ".github/workflows/", ".github/workflows/ci.yml"] ++
  (if c.features.dependabot then [".github/dependabot.yml"] else []) ++
  [".pre-commit-config.yaml", ".python-version", ".gitignore",
   ".env.example", ".editorconfig"] ++
  (if c.features.vscode then [".vscode/"] else []) ++
  (if c.features.docker then ["Dockerfile"] else []) ++
  (if c.features.docker_compose ∧
      (c.project_type = ProjectType.API ∨ c.project_type = ProjectType.DATA)
    then ["docker-compose.yml"] else []) ++
  (if c.features.makefile then ["Makefile"] else []) ++
  (if c.features.changelog then ["CHANGELOG.md"] else []) ++
  (if c.license_type ≠ License.NONE then ["LICENSE"] else []) ++
  ["pyproject.toml", "uv.lock", "src/", "src/" ++ c.package_name ++ "/",
   "src/" ++ c.package_name ++ "/__init__.py",
   "src/" ++ c.package_name ++ "/py.typed"] ++
  (match c.project_type with
   | .API => ["src/" ++ c.package_name ++ "/main.py"]
   | .CLI => ["src/" ++ c.package_name ++ "/main.py"]
   | .TUI => ["src/" ++ c.package_name ++ "/app.py",
       "src/" ++ c.package_name ++ "/css/"]
   | .DATA => ["src/" ++ c.package_name ++ "/pipeline.py"]
   | .LIBRARY => []) ++
  ["tests/", "tests/__init__.py"]

/-- The subset of `readmeTreePaths` produced by a conditional append (a
feature toggle, the archetype, or the license choice), with the same guards
as the source. -/
def readmeCondTreePaths (c : ProjectConfig) : List String :=
  (if c.features.dependabot then [".github/dependabot.yml"] else []) ++
  (if c.features.vscode then [".vscode/"] else []) ++
  (if c.features.docker then ["Dockerfile"] else []) ++
  (if c.features.docker_compose ∧
      (c.project_type = ProjectType.API ∨ c.project_type = ProjectType.DATA)
    then ["docker-compose.yml"] else []) ++
  (if c.features.makefile then ["Makefile"] else []) ++
  (if c.features.changelog then ["CHANGELOG.md"] else []) ++
  (if c.license_type ≠ License.NONE then ["LICENSE"] else []) ++
  (match c.project_type with
   | .API => ["src/" ++ c.package_name ++ "/main.py"]
   | .CLI => ["src/" ++ c.package_name ++ "/main.py"]
   | .TUI => ["src/" ++ c.package_name ++ "/app.py",
       "src/" ++ c.package_name ++ "/css/"]
   | .DATA => ["src/" ++ c.package_name ++ "/pipeline.py"]
   | .LIBRARY => [])

/-!  ## Generator write-set (`generator.ProjectGenerator.generate`)  -/

/-- The archetype-conditional source files written by
`_generate_source_files` (the `src_dir` prefix is `f"src/{package_name}"`;
API and CLI guard on `get_main_py` returning content). -/
def sourceStubPaths (c : ProjectConfig) : List String :=
  match c.project_type with
  | .API =>
    match get_main_py .API c.package_name with
    | some _ => ["src/" ++ c.package_name ++ "/main.py"]
    | Option.none => []
  | .CLI =>
    match get_main_py .CLI c.package_name with
    | some _ => ["src/" ++ c.package_name ++ "/main.py"]
    | Option.none => []
  | .TUI => ["src/" ++ c.package_name ++ "/app.py",
      "src/" ++ c.package_name ++ "/css/" ++ c.package_name ++ ".tcss"]
  | .DATA => ["src/" ++ c.package_name ++ "/pipeline.py"]
  | .LIBRARY => []

/-- The `docker-compose.yml` write from `generate`: guarded by the
`docker_compose` toggle, the archetype, and the rendered content being
non-empty (`if compose_content:`). -/
def composeWritePaths (c : ProjectConfig) : List String :=
  if c.features.docker_compose ∧
      (c.project_type = ProjectType.API ∨ c.project_type = ProjectType.DATA) then
    if get_docker_compose c = "" then [] else ["docker-compose.yml"]
  else []

/-- Every relative path passed to `_write_file` during
`ProjectGenerator.generate`, in execution order (external-tool effects such
as `uv init`'s own files are not `_write_file` calls and are not listed). -/
def generateWritePaths (c : ProjectConfig) : List String :=
  [".python-version"] ++
  ["pyproject.toml", ".gitignore", ".env.example", ".editorconfig",
   ".pre-commit-config.yaml"] ++
  ["src/" ++ c.package_name ++ "/__init__.py",
   "src/" ++ c.package_name ++ "/py.typed"] ++
  sourceStubPaths c ++
  ["tests/__init__.py",
   "tests/" ++ (get_test_file c.project_type c.package_name).1] ++
  [".github/workflows/ci.yml"] ++
  (if c.features.dependabot then [".github/dependabot.yml"] else []) ++
  (if c.features.vscode then [".vscode/settings.json", ".vscode/extensions.json"] else []) ++
  (if c.features.docker then ["Dockerfile", ".dockerignore"] else []) ++
  (if c.features.makefile then ["Makefile"] else []) ++
  (if c.features.changelog then ["CHANGELOG.md"] else []) ++
  (if c.license_type ≠ License.NONE then ["LICENSE"] else []) ++
  composeWritePaths c ++
  ["README.md"] ++
  (if c.features.security then [".secrets.baseline"] else [])

/-- The subset of `generateWritePaths` written under a condition (feature
toggle, archetype, or license choice), with the same guards as `generate`. -/
def generateCondWritePaths (c : ProjectConfig) : List String :=
  sourceStubPaths c ++
  (if c.features.dependabot then [".github/dependabot.yml"] else []) ++
  (if c.features.vscode then [".vscode/settings.json", ".vscode/extensions.json"] else []) ++
  (if c.features.docker then ["Dockerfile", ".dockerignore"] else []) ++
  (if c.features.makefile then ["Makefile"] else []) ++
  (if c.features.changelog then ["CHANGELOG.md"] else []) ++
  (if c.license_type ≠ License.NONE then ["LICENSE"] else []) ++
  composeWritePaths c ++
  (if c.features.security then [".secrets.baseline"] else [])

/-- A README tree entry `e` accounts for a written path `p` when it is that
path, or it is a directory entry (trailing `/`) under which `p` lives. -/
def treeCovers (e p : String) : Prop :=
  e = p ∨ (e.data.getLast? = some '/' ∧ e.data <+: p.data)

instance (e p : String) : Decidable (treeCovers e p) := by
  unfold treeCovers; infer_instance

/-!  ## Author resolution (`generator.ProjectGenerator._get_author`)  -/

/-- Outcome of invoking one external command: it produced stdout and exited
zero, it exited non-zero (Python `CalledProcessError`), or the executable
was not found (Python `FileNotFoundError`). -/
inductive ProcOutcome where
  | ok (stdout : String)
  | exitNonZero
  | absent
deriving DecidableEq, Repr

/-- `_get_author`, as a function of the outcomes of its two subprocess
calls (`git config user.name`, then `gh api user --jq .name`).  Each `try`
block catches only `subprocess.CalledProcessError`; a `FileNotFoundError`
from an absent executable propagates, embedded as `Except.error` naming the
uncaught exception. -/
def getAuthor (git gh : ProcOutcome) : Except String String :=
  match git with
  | .ok stdout => .ok stdout.trim
  | .absent => .error "FileNotFoundError: git"
  | .exitNonZero =>
    match gh with
    | .ok stdout => .ok stdout.trim
    | .absent => .error "FileNotFoundError: gh"
    | .exitNonZero => .ok "Your Name"

/-!  ## CLI front end (`cli.create`)  -/

/-- Reserved project names rejected by `cli.create`
(`invalid_names = {"test-repo", "test_repo", "tests", "test"}`, compared
case-insensitively via `reponame.lower()`). -/
def isReservedName (reponame : String) : Bool :=
  let lowered : String := ⟨reponame.data.map Char.toLower⟩
  lowered = "test-repo" ∨ lowered = "test_repo" ∨ lowered = "tests" ∨
    lowered = "test"

/-- The fatal exits taken by `cli.create` before or during generation. -/
inductive CliError where
  | toolMissing
  | projectExists
  | invalidName
deriving DecidableEq, Repr

/-- The front-end steps of `cli.create` up to and including project
generation, as a function of the environment: whether `uv` and `git` are on
the PATH (checked first by `check_prerequisites`), and whether
`repo_path = repoloc / reponame` already exists (checked next).  The result
pairs the outcome with the ordered list of relative paths the run writes
inside the target; every fatal exit happens before any write, so the write
list is empty on error. -/
def cliCreateRun (uvFound gitFound targetExists : Bool)
    (c : ProjectConfig) : Except CliError Unit × List String :=
  if ¬uvFound then (.error .toolMissing, [])
  else if ¬gitFound then (.error .toolMissing, [])
  else if targetExists then (.error .projectExists, [])
  else if isReservedName c.name then (.error .invalidName, [])
  else (.ok (), generateWritePaths c)

/-!  ## Spec-side definitions and helper lemmas  -/

/-- Modelled from the spec's words (§3, §8): "package identifier = display
name with every `-` and `.` replaced by `_`", as one simultaneous
character replacement; compared with the source's two sequential
`str.replace` calls. -/
def specPackageIdentifier (name : String) : String :=
  ⟨name.data.map fun c => if c = '-' ∨ c = '.' then '_' else c⟩

theorem append_ne_empty_left (a b : String) (h : a ≠ "") : a ++ b ≠ "" := by
  intro he
  apply h
  apply String.ext
  have hd := congrArg String.data he
  rw [String.data_append] at hd
  exact (List.append_eq_nil.mp hd).1

theorem get_docker_compose_api_ne (c : ProjectConfig)
    (h : c.project_type = ProjectType.API) : get_docker_compose c ≠ "" := by
  unfold get_docker_compose
  rw [if_pos h]
  apply append_ne_empty_left
  apply append_ne_empty_left
  apply append_ne_empty_left
  apply append_ne_empty_left
  decide

theorem get_docker_compose_data_ne (c : ProjectConfig)
    (h1 : c.project_type = ProjectType.DATA)
    (h2 : c.project_type ≠ ProjectType.API) : get_docker_compose c ≠ "" := by
  unfold get_docker_compose
  rw [if_neg h2, if_pos h1]
  apply append_ne_empty_left
  apply append_ne_empty_left
  apply append_ne_empty_left
  apply append_ne_empty_left
  decide

theorem packageNameOf_data (s : String) :
    (packageNameOf s).data =
      (s.data.map fun c => if c = '-' then '_' else c).map
        fun c => if c = '.' then '_' else c := rfl

theorem packageName_step (c : Char) :
    (if (if c = '-' then '_' else c) = '.' then '_'
      else if c = '-' then '_' else c) =
      if c = '-' ∨ c = '.' then '_' else c := by
  by_cases h1 : c = '-'
  · simp [h1]
  · by_cases h2 : c = '.'
    · simp [h1, h2]
    · simp [h1, h2]

theorem packageNameOf_eq_spec (s : String) :
    packageNameOf s = specPackageIdentifier s := by
  apply String.ext
  rw [packageNameOf_data, List.map_map]
  unfold specPackageIdentifier
  apply List.map_congr_left
  intro c _
  exact packageName_step c

theorem spec_char_not_dash_dot (c : Char) :
    (if c = '-' ∨ c = '.' then '_' else c) ≠ '-' ∧
      (if c = '-' ∨ c = '.' then '_' else c) ≠ '.' := by
  by_cases h : c = '-' ∨ c = '.'
  · simp [h]
  · push_neg at h
    simp [h.1, h.2]

/-- **C10** — The package-identifier derivation is idempotent: applying it
to its own output returns the output unchanged, and the output never
contains a `-` or `.` character. -/
theorem package_identifier_idempotent :
    ∀ s : String,
      packageNameOf (packageNameOf s) = packageNameOf s ∧
      '-' ∉ (packageNameOf s).data ∧ '.' ∉ (packageNameOf s).data := by
  intro s
  have hspec := packageNameOf_eq_spec
  have hclean : ∀ t : String, '-' ∉ (specPackageIdentifier t).data ∧
      '.' ∉ (specPackageIdentifier t).data := by
    intro t
    constructor <;> intro hmem <;>
      rcases List.mem_map.mp hmem with ⟨a, -, ha⟩
    · exact (spec_char_not_dash_dot a).1 ha
    · exact (spec_char_not_dash_dot a).2 ha
  refine ⟨?_, by rw [hspec]; exact (hclean s).1, by rw [hspec]; exact (hclean s).2⟩
  rw [hspec, hspec]
  apply String.ext
  unfold specPackageIdentifier
  rw [List.map_map]
  apply List.map_congr_left
  intro c _
  by_cases h : c = '-' ∨ c = '.'
  · simp [h]
  · push_neg at h
    simp [h.1, h.2]

/-!  ## C6 and C9 — CI workflow version matrix  -/

theorem ciVersions_two_parts (pv a b : String)
    (h : pySplit '.' pv = [a, b]) :
    ciVersions pv =
      match pyInt b with
      | some m => some (if m < 13 then [pv, a ++ ".13"] else [pv])
      | Option.none => Option.none := by
  unfold ciVersions
  rw [h]

theorem ciVersions_other_parts (pv : String)
    (h : ∀ a b, pySplit '.' pv ≠ [a, b]) :
    ciVersions pv = Option.none := by
  unfold ciVersions
  rcases hs : pySplit '.' pv with _ | ⟨a, _ | ⟨b, _ | ⟨c, t⟩⟩⟩
  · rfl
  · rfl
  · exact absurd hs (h a b)
  · rfl

theorem get_ci_workflow_isSome (pv : String) :
    (get_ci_workflow pv).isSome = (ciVersions pv).isSome := by
  unfold get_ci_workflow
  cases ciVersions pv <;> simp

/-- **C6** — For a runtime version string splitting into `major.minor` with
`minor` parsing as a decimal integer, the CI test matrix holds exactly the
configured version and `major ++ ".13"` when the minor is below 13, and
exactly the configured version otherwise. -/
theorem ci_matrix_versions (pv major minor : String) (m : Int)
    (hsplit : pySplit '.' pv = [major, minor])
    (hint : pyInt minor = some m) :
    (m < 13 → ciVersions pv = some [pv, major ++ ".13"]) ∧
    (¬ m < 13 → ciVersions pv = some [pv]) := by
  have h := ciVersions_two_parts pv major minor hsplit
  rw [hint] at h
  constructor <;> intro hm <;> rw [h] <;> simp [hm]

/-- Witness for C6: at "3.12" the matrix is ["3.12", "3.13"], at "3.13" it
is ["3.13"]. -/
theorem ci_matrix_versions_witness :
    ciVersions "3.12" = some ["3.12", "3.13"] ∧
      ciVersions "3.13" = some ["3.13"] :=
  ⟨(ci_matrix_versions "3.12" "3" "12" 12 (by decide) (by decide)).1 (by decide),
   (ci_matrix_versions "3.13" "3" "13" 13 (by decide) (by decide)).2 (by decide)⟩

/-- **C9** — The CI-workflow renderer is a partial function of the version
string: it returns a workflow exactly when the string splits on `.` into
two parts whose second parses as a decimal integer; on "3", "3.12.1" and
"3.x" it raises (embedded as `none`). -/
theorem ci_workflow_partial :
    (∀ pv : String,
      (get_ci_workflow pv).isSome = true ↔
        ∃ major minor m, pySplit '.' pv = [major, minor] ∧
          pyInt minor = some m) ∧
    get_ci_workflow "3" = Option.none ∧
    get_ci_workflow "3.12.1" = Option.none ∧
    get_ci_workflow "3.x" = Option.none := by
  refine ⟨?_, by decide, by decide, by decide⟩
  intro pv
  rw [get_ci_workflow_isSome]
  rcases hs : pySplit '.' pv with _ | ⟨a, _ | ⟨b, _ | ⟨c, t⟩⟩⟩
  · rw [ciVersions_other_parts pv (by simp [hs])]
    exact iff_of_false (by simp)
      (by rintro ⟨ma, mi, m, h1, h2⟩; exact List.noConfusion h1)
  · rw [ciVersions_other_parts pv (by simp [hs])]
    exact iff_of_false (by simp)
      (by rintro ⟨ma, mi, m, h1, h2⟩; simp at h1)
  · rw [ciVersions_two_parts pv a b hs]
    rcases hi : pyInt b with - | m
    · refine iff_of_false (by simp) ?_
      rintro ⟨ma, mi, m, h1, h2⟩
      obtain ⟨rfl, rfl⟩ : a = ma ∧ b = mi := by simpa using h1
      rw [hi] at h2
      exact Option.noConfusion h2
    · exact iff_of_true (by simp) ⟨a, b, m, rfl, hi⟩
  · rw [ciVersions_other_parts pv (by simp [hs])]
    exact iff_of_false (by simp)
      (by rintro ⟨ma, mi, m, h1, h2⟩; simp at h1)

/-!  ## C3 — Author resolution fallback chain  -/

/-- **C3 counterexample** — With `git` absent from the system, author
resolution raises an uncaught `FileNotFoundError` instead of silently
advancing to the next step, refuting the claim as stated. -/
theorem author_absent_tool_raises :
    getAuthor ProcOutcome.absent (ProcOutcome.ok "Alice") =
      Except.error "FileNotFoundError: git" := rfl

/-- **C3 amended** — Author resolution tries `git config user.name`, then
the GitHub API user name, then the literal "Your Name"; a step's non-zero
exit silently advances to the next, and when neither tool is absent the
resolution never raises; but an absent tool raises an uncaught
`FileNotFoundError`. -/
theorem author_fallback_chain :
    ∀ git gh : ProcOutcome,
      (∀ s, git = ProcOutcome.ok s → getAuthor git gh = Except.ok s.trim) ∧
      (git = ProcOutcome.exitNonZero → ∀ s, gh = ProcOutcome.ok s →
        getAuthor git gh = Except.ok s.trim) ∧
      (git = ProcOutcome.exitNonZero → gh = ProcOutcome.exitNonZero →
        getAuthor git gh = Except.ok "Your Name") ∧
      (git ≠ ProcOutcome.absent → gh ≠ ProcOutcome.absent →
        ∃ s, getAuthor git gh = Except.ok s) ∧
      (git = ProcOutcome.absent → ∃ e, getAuthor git gh = Except.error e) ∧
      (git = ProcOutcome.exitNonZero → gh = ProcOutcome.absent →
        ∃ e, getAuthor git gh = Except.error e) := by
  intro git gh
  cases git <;> cases gh <;>
    refine ⟨?_, ?_, ?_, ?_, ?_, ?_⟩ <;> simp [getAuthor]

/-- Witness for the amended C3: both steps exiting non-zero yields the
placeholder. -/
theorem author_fallback_chain_witness :
    getAuthor ProcOutcome.exitNonZero ProcOutcome.exitNonZero =
      Except.ok "Your Name" :=
  (author_fallback_chain ProcOutcome.exitNonZero ProcOutcome.exitNonZero).2.2.1
    rfl rfl

/-!  ## C1 — existing target directory aborts the run  -/

/-- **C1** — When the prerequisite tools are present and the target
directory `repoloc / reponame` already exists, the run aborts with the
project-exists precondition error and performs no file writes. -/
theorem existing_target_aborts (c : ProjectConfig) (uvFound gitFound : Bool)
    (huv : uvFound = true) (hgit : gitFound = true) :
    cliCreateRun uvFound gitFound true c =
      (Except.error CliError.projectExists, []) := by
  subst huv; subst hgit
  simp [cliCreateRun]

/-- Witness for C1 at a concrete configuration. -/
theorem existing_target_aborts_witness :
    cliCreateRun true true true { name := "demo" } =
      (Except.error CliError.projectExists, []) :=
  existing_target_aborts { name := "demo" } true true rfl rfl

/-!  ## C5 — docker-compose generation  -/

/-- **C5 counterexample** — with the compose toggle off and archetype
api-service, the compose renderer still returns a non-empty document (it
never consults the toggle), even though the Generator writes no compose
file; this refutes "for all other configurations the compose renderer
returns an empty result". -/
theorem compose_renderer_ignores_toggle :
    get_docker_compose { name := "myapi"
                         project_type := ProjectType.API
                         features := { docker_compose := false } } ≠ "" ∧
      composeWritePaths { name := "myapi"
                          project_type := ProjectType.API
                          features := { docker_compose := false } } = [] := by
  constructor
  · exact get_docker_compose_api_ne _ rfl
  · simp [composeWritePaths]

/-- **C5 amended** — a compose file is written iff the compose toggle is on
and the archetype is api-service or data-pipeline; the renderer returns an
empty result exactly for the other archetypes (regardless of the toggle)
and a non-empty document for api/data; the Generator skips the write when
the content is empty, so an empty file is never written. -/
theorem compose_write_iff :
    ∀ c : ProjectConfig,
      (composeWritePaths c = ["docker-compose.yml"] ↔
        c.features.docker_compose = true ∧
          (c.project_type = ProjectType.API ∨
            c.project_type = ProjectType.DATA)) ∧
      (¬(c.features.docker_compose = true ∧
          (c.project_type = ProjectType.API ∨
            c.project_type = ProjectType.DATA)) →
        composeWritePaths c = []) ∧
      ((c.project_type = ProjectType.API ∨ c.project_type = ProjectType.DATA) →
        get_docker_compose c ≠ "") ∧
      (c.project_type ≠ ProjectType.API → c.project_type ≠ ProjectType.DATA →
        get_docker_compose c = "") := by
  intro c
  have hne : (c.project_type = ProjectType.API ∨
      c.project_type = ProjectType.DATA) → get_docker_compose c ≠ "" := by
    rintro (h | h)
    · exact get_docker_compose_api_ne c h
    · by_cases hapi : c.project_type = ProjectType.API
      · exact get_docker_compose_api_ne c hapi
      · exact get_docker_compose_data_ne c h hapi
  refine ⟨⟨?_, ?_⟩, ?_, hne, ?_⟩
  · intro h
    unfold composeWritePaths at h
    by_cases hc : c.features.docker_compose = true ∧
        (c.project_type = ProjectType.API ∨ c.project_type = ProjectType.DATA)
    · exact hc
    · rw [if_neg hc] at h
      exact absurd h (by simp)
  · intro hc
    unfold composeWritePaths
    rw [if_pos hc, if_neg (hne hc.2)]
  · intro hn
    unfold composeWritePaths
    rw [if_neg hn]
  · intro h1 h2
    unfold get_docker_compose
    rw [if_neg h1, if_neg h2]

/-- Witness for the amended C5: a concrete api-service configuration with
the toggle on gets exactly one compose write. -/
theorem compose_write_iff_witness :
    composeWritePaths { name := "myapi", project_type := ProjectType.API } =
      ["docker-compose.yml"] :=
  (compose_write_iff
    { name := "myapi", project_type := ProjectType.API }).1.mpr
    ⟨rfl, Or.inl rfl⟩

/-!  ## C7 — development dependency group  -/

/-- **C7** — the dev dependency group is the concatenation, in this fixed
order, of the core dev tools, the archetype-specific dev tools, and the
security tools iff the security toggle is on; and the generated manifest
renders exactly that list in its `[dependency-groups]` section. -/
theorem dev_group_fixed_order :
    ∀ c : ProjectConfig,
      devDepsList c =
        CORE_DEV_DEPS ++ DEV_DEPS c.project_type ++
          (if c.features.security then SECURITY_DEV_DEPS else []) ∧
      (c.features.security = false →
        devDepsList c = CORE_DEV_DEPS ++ DEV_DEPS c.project_type) ∧
      ∃ pre post,
        get_pyproject_toml c =
          pre ++ ("\n[dependency-groups]\ndev = [\n    " ++
            String.intercalate ",\n    "
              ((CORE_DEV_DEPS ++ DEV_DEPS c.project_type ++
                (if c.features.security then SECURITY_DEV_DEPS else [])).map
                  quoteDep) ++ ",\n]\n") ++ post := by
  intro c
  refine ⟨rfl, ?_, ?_⟩
  · intro h
    unfold devDepsList
    rw [h]
    simp
  · refine ⟨pyprojectBase c ++ pyprojectLicenseLine c ++ pyprojectBuild c ++
      pyprojectScripts c, pyprojectTools c ++ pyprojectBandit c, ?_⟩
    unfold get_pyproject_toml pyprojectDevGroup devDepsList
    simp [String.append_assoc]

/-- Witness for C7 at a concrete configuration with security off. -/
theorem dev_group_fixed_order_witness :
    devDepsList { name := "d"
                  project_type := ProjectType.DATA
                  features := { security := false } } =
      CORE_DEV_DEPS ++ DEV_DEPS ProjectType.DATA :=
  (dev_group_fixed_order { name := "d"
                           project_type := ProjectType.DATA
                           features := { security := false } }).2.1 rfl

/-!  ## C8 — entry-point block  -/

/-- **C8** — the `[project.scripts]` entry-point block is non-empty iff the
archetype is command-line-tool or api-service; when present it maps the
package identifier to `"<package identifier>.main:app"`; and the block is a
component of the generated manifest. -/
theorem entry_point_block_iff :
    ∀ c : ProjectConfig,
      (pyprojectScripts c ≠ "" ↔
        (c.project_type = ProjectType.CLI ∨
          c.project_type = ProjectType.API)) ∧
      ((c.project_type = ProjectType.CLI ∨ c.project_type = ProjectType.API) →
        pyprojectScripts c =
          "\n[project.scripts]\n" ++ c.package_name ++ " = \"" ++
            c.package_name ++ ".main:app\"\n") ∧
      (¬(c.project_type = ProjectType.CLI ∨
          c.project_type = ProjectType.API) →
        pyprojectScripts c = "") ∧
      ∃ pre post, get_pyproject_toml c = pre ++ pyprojectScripts c ++ post := by
  intro c
  refine ⟨⟨?_, ?_⟩, ?_, ?_, ?_⟩
  · intro h
    by_contra hn
    apply h
    unfold pyprojectScripts
    rw [if_neg hn]
  · intro h
    unfold pyprojectScripts
    rw [if_pos h]
    apply append_ne_empty_left
    apply append_ne_empty_left
    apply append_ne_empty_left
    apply append_ne_empty_left
    decide
  · intro h
    unfold pyprojectScripts
    rw [if_pos h]
  · intro h
    unfold pyprojectScripts
    rw [if_neg h]
  · refine ⟨pyprojectBase c ++ pyprojectLicenseLine c ++ pyprojectBuild c,
      pyprojectDevGroup c ++ pyprojectTools c ++ pyprojectBandit c, ?_⟩
    unfold get_pyproject_toml
    simp [String.append_assoc]

/-- Witness for C8 at a concrete CLI configuration. -/
theorem entry_point_block_iff_witness :
    pyprojectScripts { name := "mycli", project_type := ProjectType.CLI } =
      "\n[project.scripts]\n" ++
        (ProjectConfig.package_name
          { name := "mycli", project_type := ProjectType.CLI }) ++ " = \"" ++
        (ProjectConfig.package_name
          { name := "mycli", project_type := ProjectType.CLI }) ++
        ".main:app\"\n" :=
  (entry_point_block_iff
    { name := "mycli", project_type := ProjectType.CLI }).2.1 (Or.inl rfl)

/-!  ## C4 — one package identifier everywhere  -/

/-- **C4** — the derived package identifier equals the display name with
every `-` and `.` replaced by `_`, and that one string is what appears in
the manifest's project name, the wheel packages path, the source package
directory path, the import reference in the generated test stub, and the
stub class name used by both the TUI source stub and its test. -/
theorem package_identifier_consistency :
    ∀ c : ProjectConfig,
      c.package_name = specPackageIdentifier c.name ∧
      (∃ post, get_pyproject_toml c =
        "[project]\nname = \"" ++ c.package_name ++ "\"\n" ++ post) ∧
      (∃ pre post, get_pyproject_toml c =
        pre ++ ("packages = [\"src/" ++ c.package_name ++ "\"]") ++ post) ∧
      "src/" ++ c.package_name ++ "/__init__.py" ∈ generateWritePaths c ∧
      ((c.project_type = ProjectType.CLI ∨ c.project_type = ProjectType.API) →
        ∃ pre post, get_pyproject_toml c =
          pre ++ (c.package_name ++ " = \"" ++ c.package_name ++
            ".main:app\"\n") ++ post) ∧
      (∃ pre post, (get_test_file ProjectType.API c.package_name).2 =
        pre ++ ("from " ++ c.package_name ++ ".main import app") ++ post) ∧
      (∃ pre post, get_app_py c.package_name =
        pre ++ ("class " ++ tuiClassName c.package_name ++ "(App):") ++ post) ∧
      (∃ pre post, (get_test_file ProjectType.TUI c.package_name).2 =
        pre ++ (".app import " ++ tuiClassName c.package_name) ++ post) := by
  intro c
  refine ⟨packageNameOf_eq_spec c.name, ?_, ?_, ?_, ?_, ?_, ?_, ?_⟩
  · refine ⟨"version = \"0.1.0\"\ndescription = \"Add your description here\"\nreadme = \"README.md\"\nrequires-python = \">=" ++
      c.python_version ++ "\"\ndependencies = " ++
      depsLine (RUNTIME_DEPS c.project_type) ++ "\n" ++
      pyprojectLicenseLine c ++ pyprojectBuild c ++ pyprojectScripts c ++
      pyprojectDevGroup c ++ pyprojectTools c ++ pyprojectBandit c, ?_⟩
    unfold get_pyproject_toml pyprojectBase
    simp only [String.append_assoc]
  · refine ⟨pyprojectBase c ++ pyprojectLicenseLine c ++
      "\n[build-system]\nrequires = [\"hatchling\"]\nbuild-backend = \"hatchling.build\"\n\n[tool.hatch.build.targets.wheel]\n",
      "\n" ++ pyprojectScripts c ++ pyprojectDevGroup c ++
        pyprojectTools c ++ pyprojectBandit c, ?_⟩
    unfold get_pyproject_toml pyprojectBuild
    simp only [String.append_assoc]
  · simp [generateWritePaths]
  · intro h
    refine ⟨pyprojectBase c ++ pyprojectLicenseLine c ++ pyprojectBuild c ++
      "\n[project.scripts]\n",
      pyprojectDevGroup c ++ pyprojectTools c ++ pyprojectBandit c, ?_⟩
    unfold get_pyproject_toml pyprojectScripts
    rw [if_pos h]
    simp only [String.append_assoc]
  · refine ⟨"from typing import AsyncIterator\n\nimport pytest\nfrom httpx import ASGITransport, AsyncClient\n\n",
      "\n\n\n@pytest.fixture\nasync def client() -> AsyncIterator[AsyncClient]:\n    async with AsyncClient(transport=ASGITransport(app=app), base_url=\"http://test\") as ac:\n        yield ac\n\n\n@pytest.mark.asyncio\nasync def test_health(client: AsyncClient) -> None:\n    response = await client.get(\"/health\")\n    assert response.status_code == 200\n    assert response.json() == \x7b\"status\": \"ok\"\x7d\n", ?_⟩
    unfold get_test_file
    simp only [String.append_assoc]
  · refine ⟨"from textual.app import App, ComposeResult\nfrom textual.widgets import Footer, Header, Static\n\n\n",
      "\n    \"\"\"A Textual app.\"\"\"\n\n    BINDINGS = [(\"q\", \"quit\", \"Quit\")]\n\n    def compose(self) -> ComposeResult:\n        yield Header()\n        yield Static(\"Hello, World!\")\n        yield Footer()\n\n\ndef main() -> None:\n    app = " ++
      tuiClassName c.package_name ++
      "()\n    app.run()\n\n\nif __name__ == \"__main__\":\n    main()\n", ?_⟩
    unfold get_app_py
    simp only [String.append_assoc]
  · refine ⟨"import pytest\n\nfrom " ++ c.package_name,
      "\n\n\n@pytest.mark.asyncio\nasync def test_app_runs() -> None:\n    app = " ++
      tuiClassName c.package_name ++
      "()\n    async with app.run_test():\n        assert app.is_running\n", ?_⟩
    unfold get_test_file
    simp only [String.append_assoc]

/-- Witness for C4 at a concrete api-service configuration: the
entry-point block references the derived identifier. -/
theorem package_identifier_consistency_witness :
    ∃ pre post,
      get_pyproject_toml { name := "my-api", project_type := ProjectType.API } =
        pre ++ ((ProjectConfig.package_name
            { name := "my-api", project_type := ProjectType.API }) ++ " = \"" ++
          (ProjectConfig.package_name
            { name := "my-api", project_type := ProjectType.API }) ++
          ".main:app\"\n") ++ post :=
  (package_identifier_consistency
    { name := "my-api", project_type := ProjectType.API }).2.2.2.2.1
    (Or.inr rfl)

/-!  ## C2 — README tree vs Generator write-set  -/

theorem treeCovers_refl (p : String) : treeCovers p p := Or.inl rfl

theorem treeCovers_css (pkg : String) :
    treeCovers ("src/" ++ pkg ++ "/css/")
      ("src/" ++ pkg ++ "/css/" ++ pkg ++ ".tcss") := by
  refine Or.inr ⟨?_, ?_⟩
  · show (("src/" ++ pkg) ++ "/css/").data.getLast? = some '/'
    rw [String.data_append]
    rw [List.getLast?_append_of_ne_nil _ (by decide)]
    rfl
  · have h : "src/" ++ pkg ++ "/css/" ++ pkg ++ ".tcss" =
        ("src/" ++ pkg ++ "/css/") ++ (pkg ++ ".tcss") := by
      simp only [String.append_assoc]
    rw [h, String.data_append]
    exact List.prefix_append _ _

theorem get_docker_compose_ne_of (c : ProjectConfig)
    (h : c.project_type = ProjectType.API ∨
      c.project_type = ProjectType.DATA) : get_docker_compose c ≠ "" := by
  rcases h with h | h
  · exact get_docker_compose_api_ne c h
  · by_cases hapi : c.project_type = ProjectType.API
    · exact get_docker_compose_api_ne c hapi
    · exact get_docker_compose_data_ne c h hapi

theorem cond_writes_in_tree (c : ProjectConfig) :
    ∀ p ∈ generateCondWritePaths c,
      p = ".dockerignore" ∨ p = ".secrets.baseline" ∨
        ∃ e ∈ readmeTreePaths c, treeCovers e p := by
  intro p hp
  unfold generateCondWritePaths at hp
  simp only [List.mem_append] at hp
  rcases hp with ((((((((hp | hp) | hp) | hp) | hp) | hp) | hp) | hp) | hp)
  · cases htype : c.project_type with
    | LIBRARY => simp [sourceStubPaths, htype] at hp
    | API =>
      simp [sourceStubPaths, htype, get_main_py] at hp
      subst hp
      refine Or.inr (Or.inr ⟨_, ?_, treeCovers_refl _⟩)
      simp [readmeTreePaths, htype]
    | CLI =>
      simp [sourceStubPaths, htype, get_main_py] at hp
      subst hp
      refine Or.inr (Or.inr ⟨_, ?_, treeCovers_refl _⟩)
      simp [readmeTreePaths, htype]
    | DATA =>
      simp [sourceStubPaths, htype] at hp
      subst hp
      refine Or.inr (Or.inr ⟨_, ?_, treeCovers_refl _⟩)
      simp [readmeTreePaths, htype]
    | TUI =>
      simp [sourceStubPaths, htype] at hp
      rcases hp with hp | hp
      · subst hp
        refine Or.inr (Or.inr ⟨_, ?_, treeCovers_refl _⟩)
        simp [readmeTreePaths, htype]
      · subst hp
        refine Or.inr (Or.inr ⟨"src/" ++ c.package_name ++ "/css/", ?_,
          treeCovers_css c.package_name⟩)
        simp [readmeTreePaths, htype]
  · cases hb : c.features.dependabot with
    | false => simp [hb] at hp
    | true =>
      simp [hb] at hp
      subst hp
      refine Or.inr (Or.inr ⟨".github/dependabot.yml", ?_, treeCovers_refl _⟩)
      simp [readmeTreePaths, hb]
  · cases hb : c.features.vscode with
    | false => simp [hb] at hp
    | true =>
      simp [hb] at hp
      refine Or.inr (Or.inr ⟨".vscode/", ?_, ?_⟩)
      · simp [readmeTreePaths, hb]
      · rcases hp with hp | hp <;> subst hp <;> decide
  · cases hb : c.features.docker with
    | false => simp [hb] at hp
    | true =>
      simp [hb] at hp
      rcases hp with hp | hp
      · subst hp
        refine Or.inr (Or.inr ⟨"Dockerfile", ?_, treeCovers_refl _⟩)
        simp [readmeTreePaths, hb]
      · exact Or.inl hp
  · cases hb : c.features.makefile with
    | false => simp [hb] at hp
    | true =>
      simp [hb] at hp
      subst hp
      refine Or.inr (Or.inr ⟨"Makefile", ?_, treeCovers_refl _⟩)
      simp [readmeTreePaths, hb]
  · cases hb : c.features.changelog with
    | false => simp [hb] at hp
    | true =>
      simp [hb] at hp
      subst hp
      refine Or.inr (Or.inr ⟨"CHANGELOG.md", ?_, treeCovers_refl _⟩)
      simp [readmeTreePaths, hb]
  · by_cases hl : c.license_type = License.NONE
    · simp [hl] at hp
    · simp [hl] at hp
      subst hp
      refine Or.inr (Or.inr ⟨"LICENSE", ?_, treeCovers_refl _⟩)
      simp [readmeTreePaths, hl]
  · unfold composeWritePaths at hp
    split at hp
    case isTrue h =>
      split at hp
      · simp at hp
      · simp at hp
        subst hp
        obtain ⟨h1, h2⟩ := h
        refine Or.inr (Or.inr ⟨"docker-compose.yml", ?_, treeCovers_refl _⟩)
        rcases h2 with h2 | h2 <;> simp [readmeTreePaths, h1, h2]
    case isFalse h => simp at hp
  · cases hb : c.features.security with
    | false => simp [hb] at hp
    | true =>
      simp [hb] at hp
      exact Or.inr (Or.inl hp)

theorem cond_tree_entries_written (c : ProjectConfig) :
    ∀ e ∈ readmeCondTreePaths c,
      ∃ p ∈ generateCondWritePaths c, treeCovers e p := by
  intro e he
  unfold readmeCondTreePaths at he
  simp only [List.mem_append] at he
  rcases he with (((((((he | he) | he) | he) | he) | he) | he) | he)
  · cases hb : c.features.dependabot with
    | false => simp [hb] at he
    | true =>
      simp [hb] at he
      subst he
      refine ⟨".github/dependabot.yml", ?_, treeCovers_refl _⟩
      simp [generateCondWritePaths, hb]
  · cases hb : c.features.vscode with
    | false => simp [hb] at he
    | true =>
      simp [hb] at he
      subst he
      refine ⟨".vscode/settings.json", ?_, by decide⟩
      simp [generateCondWritePaths, hb]
  · cases hb : c.features.docker with
    | false => simp [hb] at he
    | true =>
      simp [hb] at he
      subst he
      refine ⟨"Dockerfile", ?_, treeCovers_refl _⟩
      simp [generateCondWritePaths, hb]
  · split at he
    case isTrue h =>
      simp at he
      subst he
      obtain ⟨h1, h2⟩ := h
      have hcw : composeWritePaths c = ["docker-compose.yml"] := by
        unfold composeWritePaths
        rw [if_pos ⟨h1, h2⟩, if_neg (get_docker_compose_ne_of c h2)]
      refine ⟨"docker-compose.yml", ?_, treeCovers_refl _⟩
      simp [generateCondWritePaths, hcw]
    case isFalse h => simp at he
  · cases hb : c.features.makefile with
    | false => simp [hb] at he
    | true =>
      simp [hb] at he
      subst he
      refine ⟨"Makefile", ?_, treeCovers_refl _⟩
      simp [generateCondWritePaths, hb]
  · cases hb : c.features.changelog with
    | false => simp [hb] at he
    | true =>
      simp [hb] at he
      subst he
      refine ⟨"CHANGELOG.md", ?_, treeCovers_refl _⟩
      simp [generateCondWritePaths, hb]
  · by_cases hl : c.license_type = License.NONE
    · simp [hl] at he
    · simp [hl] at he
      subst he
      refine ⟨"LICENSE", ?_, treeCovers_refl _⟩
      simp [generateCondWritePaths, hl]
  · cases htype : c.project_type with
    | LIBRARY => simp [htype] at he
    | API =>
      simp [htype] at he
      subst he
      refine ⟨"src/" ++ c.package_name ++ "/main.py", ?_, treeCovers_refl _⟩
      simp [generateCondWritePaths, sourceStubPaths, htype, get_main_py]
    | CLI =>
      simp [htype] at he
      subst he
      refine ⟨"src/" ++ c.package_name ++ "/main.py", ?_, treeCovers_refl _⟩
      simp [generateCondWritePaths, sourceStubPaths, htype, get_main_py]
    | DATA =>
      simp [htype] at he
      subst he
      refine ⟨"src/" ++ c.package_name ++ "/pipeline.py", ?_, treeCovers_refl _⟩
      simp [generateCondWritePaths, sourceStubPaths, htype]
    | TUI =>
      simp [htype] at he
      rcases he with he | he
      · subst he
        refine ⟨"src/" ++ c.package_name ++ "/app.py", ?_, treeCovers_refl _⟩
        simp [generateCondWritePaths, sourceStubPaths, htype]
      · subst he
        refine ⟨"src/" ++ c.package_name ++ "/css/" ++ c.package_name ++ ".tcss",
          ?_, treeCovers_css c.package_name⟩
        simp [generateCondWritePaths, sourceStubPaths, htype]

/-- **C2 counterexample** — for the all-defaults library configuration the
Generator conditionally writes `.dockerignore` (docker toggle on), but no
entry of the README tree lists or covers it, refuting the claim that every
conditional file the Generator writes appears in the tree. -/
theorem readme_tree_misses_dockerignore :
    ".dockerignore" ∈ generateCondWritePaths { name := "mylib" } ∧
      ∀ e ∈ readmeTreePaths { name := "mylib" },
        ¬ treeCovers e ".dockerignore" := by
  constructor
  · decide
  · decide

/-- **C2 amended** — every conditionally generated file the Generator
writes appears in the README tree (directly, or under a directory entry
shown in the tree) except `.dockerignore` and `.secrets.baseline`, which
are written but never listed; and every conditional entry shown in the tree
corresponds to a file the Generator writes. -/
theorem readme_tree_lockstep :
    ∀ c : ProjectConfig,
      (∀ p ∈ generateCondWritePaths c,
        p = ".dockerignore" ∨ p = ".secrets.baseline" ∨
          ∃ e ∈ readmeTreePaths c, treeCovers e p) ∧
      (∀ e ∈ readmeCondTreePaths c,
        ∃ p ∈ generateCondWritePaths c, treeCovers e p) :=
  fun c => ⟨cond_writes_in_tree c, cond_tree_entries_written c⟩

/-- Witness for the amended C2: at the default library configuration the
conditional write `Dockerfile` is covered by a tree entry. -/
theorem readme_tree_lockstep_witness :
    ∃ e ∈ readmeTreePaths { name := "mylib" },
      treeCovers e "Dockerfile" := by
  have h := (readme_tree_lockstep { name := "mylib" }).1 "Dockerfile" (by decide)
  rcases h with h | h | h
  · exact absurd h (by decide)
  · exact absurd h (by decide)
  · exact h

end InitPythonRepo
